import Mathlib

/-!
Shallow embedding of `packages/camera/elinux/gst_camera.cc` (the GStreamer
camera adapter of the flutter-elinux camera plugin).

Every call into the GStreamer / GLib library is recorded as an event in a
trace (`Call`), and the outcomes the library may produce (element creation
success, link success, state-change return codes, caps-reported frame
dimensions, bus messages) are explicit parameters of the embedded
functions.  The adapter's own state (`_GstCamera gst_`, `width_`,
`height_`, `pixels_`, the zoom bounds and the stored capture callback) is
the record `CameraState`.  C++ `float` arithmetic on the zoom level is
modelled with `ℚ` (all constants involved, 0.0 and 3.0, are exactly
representable), and `static_cast<int>` on a float is truncation toward
zero (`ratTrunc`).
-/

/-- Tags for the GStreamer object handles the adapter creates.  The code
only ever tests handles for nullness and passes them along, so the
identity of a non-null handle is irrelevant; a tag per field suffices. -/
inductive Elem where
  | pipelineE
  | sourceE
  | jpegdecE
  | videoConvertE
  | videoSinkE
  | busE
deriving DecidableEq, Repr

/-- GStreamer element states used by the adapter. -/
inductive GstState where
  | stateNull
  | ready
  | paused
  | playing
deriving DecidableEq, Repr

/-- Return values of `gst_element_set_state` / `gst_element_get_state`. -/
inductive StateChangeReturn where
  | failure
  | success
  | async
  | noPreroll
deriving DecidableEq, Repr, Fintype

/-- Return values of a bus sync handler. -/
inductive BusSyncReply where
  | drop
  | pass
  | asyncReply
deriving DecidableEq, Repr

/-- The bus message types the switch in `HandleGstMessage` distinguishes;
`other` stands for every type that falls into `default`. -/
inductive MsgType where
  | element
  | warning
  | error
  | other
deriving DecidableEq, Repr

/-- A bus message: its type and, for ELEMENT messages, the attached
structure as an optional (name, "filename" field) pair.
`gst_message_get_structure` may return null (`none`), and
`gst_structure_get_string(st, "filename")` may return null (`none`). -/
structure Message where
  mtype : MsgType
  mstruct : Option (String × Option String)
deriving DecidableEq, Repr

/-- One call into the GStreamer / GLib library (or one lock operation),
recorded in program order. -/
inductive Call where
  | pipelineNew (name : String)
  | factoryMake (factory name : String)
  | setDevice (e : Elem) (device : String)
  | pipelineGetBus
  | busSetSyncHandler
  | setSinkProps
  | setSignalHandoffs (b : Bool)
  | connectHandoff
  | binAddMany (es : List Elem)
  | capsFromString (caps : String)
  | elementLinkFiltered (src dst : Elem) (caps : String)
  | elementLink (src dst : Elem)
  | capsUnref (caps : String)
  | setState (e : Elem) (s : GstState)
  | getState (e : Elem)
  | setExtraControls (e : Elem) (zoomAbsolute : Int)
  | bufferExtract (buf : Nat) (off size : Nat)
  | bufferRef (buf : Nat)
  | bufferUnref (buf : Nat)
  | bufferLoadHandle (v : Option Nat)
  | bufferStoreHandle (v : Option Nat)
  | allocPixels (n : Int)
  | notifyFrameDecoded
  | invokeCaptureCallback (cb : Nat) (filename : Option String)
  | lockShared
  | unlockShared
  | lockExclusive
  | unlockExclusive
  | parseWarning
  | parseError
  | gFreeDebug
  | errorFree
  | msgUnref
  | objectUnref (e : Elem)
  | log (msg : String)
deriving DecidableEq, Repr

/-- The `_GstCamera gst_` member: one nullable handle per field. -/
structure GstData where
  pipeline : Option Elem
  source : Option Elem
  jpegdec : Option Elem
  video_convert : Option Elem
  video_sink : Option Elem
  output : Option Elem
  bus : Option Elem
  buffer : Option Nat
deriving DecidableEq, Repr

/-- All handles null, as the constructor initializes them. -/
def emptyGst : GstData :=
  { pipeline := none, source := none, jpegdec := none, video_convert := none,
    video_sink := none, output := none, bus := none, buffer := none }

/-- The adapter's own mutable state: the handle record, the negotiated
frame size, the pixel-buffer allocation (its element count, `none` when
unallocated), the zoom bounds and the stored capture callback. -/
structure CameraState where
  gst : GstData
  width : Int
  height : Int
  pixelsLen : Option Int
  max_zoom_level : ℚ
  min_zoom_level : ℚ
  on_notify_captured : Option Nat
deriving DecidableEq, Repr

/-- Outcomes the library produces during `CreatePipeline`: whether each
creation call returns a handle and whether each link call succeeds. -/
structure CreateEnv where
  pipelineOk : Bool
  sourceOk : Bool
  jpegdecOk : Bool
  convertOk : Bool
  sinkOk : Bool
  busOk : Bool
  linkSrcJpegOk : Bool
  linkJpegConvOk : Bool
  linkConvSinkOk : Bool
deriving DecidableEq, Repr

/-- The MJPG caps string built at line 188 of the source. -/
def mjpegCapsStr : String := "image/jpeg,width=1920,height=1080,framerate=30/1"

/-- The RGBA caps string built at line 205 of the source. -/
def rgbaCapsStr : String := "video/x-raw,format=RGBA"

/-- `GstCamera::CreatePipeline`, lines 134-216: creates pipeline, v4l2src,
jpegdec, videoconvert, fakesink and the bus, wires the sink callback, adds
the elements, and links source→jpegdec (MJPG caps filter),
jpegdec→videoconvert, videoconvert→sink (RGBA caps filter), returning
false at the first creation or link failure. -/
def CreatePipeline (env : CreateEnv) (g0 : GstData) : Bool × GstData × List Call :=
  let t := [Call.pipelineNew "pipeline"]
  if env.pipelineOk = false then
    (false, { g0 with pipeline := none }, t ++ [Call.log "Failed to create a pipeline"])
  else
    let g := { g0 with pipeline := some Elem.pipelineE }
    let t := t ++ [Call.factoryMake "v4l2src" "source"]
    if env.sourceOk = false then
      (false, { g with source := none }, t ++ [Call.log "Failed to create v4l2src"])
    else
      let g := { g with source := some Elem.sourceE }
      let t := t ++ [Call.setDevice Elem.sourceE "/dev/video34",
                     Call.factoryMake "jpegdec" "jpegdec"]
      if env.jpegdecOk = false then
        (false, { g with jpegdec := none }, t ++ [Call.log "Failed to create jpegdec"])
      else
        let g := { g with jpegdec := some Elem.jpegdecE }
        let t := t ++ [Call.factoryMake "videoconvert" "videoconvert"]
        if env.convertOk = false then
          (false, { g with video_convert := none },
           t ++ [Call.log "Failed to create a videoconvert"])
        else
          let g := { g with video_convert := some Elem.videoConvertE }
          let t := t ++ [Call.factoryMake "fakesink" "videosink"]
          if env.sinkOk = false then
            (false, { g with video_sink := none },
             t ++ [Call.log "Failed to create a videosink"])
          else
            let g := { g with video_sink := some Elem.videoSinkE }
            let t := t ++ [Call.pipelineGetBus]
            if env.busOk = false then
              (false, { g with bus := none }, t ++ [Call.log "Failed to create a bus"])
            else
              let g := { g with bus := some Elem.busE }
              let t := t ++ [Call.busSetSyncHandler, Call.setSinkProps,
                             Call.setSignalHandoffs true, Call.connectHandoff,
                             Call.binAddMany [Elem.sourceE, Elem.jpegdecE,
                                              Elem.videoConvertE, Elem.videoSinkE],
                             Call.capsFromString mjpegCapsStr,
                             Call.elementLinkFiltered Elem.sourceE Elem.jpegdecE mjpegCapsStr]
              if env.linkSrcJpegOk = false then
                (false, g, t ++ [Call.log "Failed to link source to jpegdec",
                                 Call.capsUnref mjpegCapsStr])
              else
                let t := t ++ [Call.capsUnref mjpegCapsStr,
                               Call.elementLink Elem.jpegdecE Elem.videoConvertE]
                if env.linkJpegConvOk = false then
                  (false, g, t ++ [Call.log "Failed to link jpegdec to videoconvert"])
                else
                  let t := t ++ [Call.capsFromString rgbaCapsStr,
                                 Call.elementLinkFiltered Elem.videoConvertE Elem.videoSinkE rgbaCapsStr,
                                 Call.capsUnref rgbaCapsStr]
                  if env.linkConvSinkOk = false then
                    (false, g, t ++ [Call.log "Failed to link videoconvert to sink"])
                  else
                    (true, g, t)

/-- Is a trace event one of the two element-link calls. -/
def isLinkCall : Call → Bool
  | Call.elementLinkFiltered _ _ _ => true
  | Call.elementLink _ _ => true
  | _ => false

/-- The subsequence of link calls of a trace, in order. -/
def linkCalls (tr : List Call) : List Call := tr.filter isLinkCall

/-- All six creation steps of `CreatePipeline` succeed. -/
def elemsOk (env : CreateEnv) : Bool :=
  env.pipelineOk && env.sourceOk && env.jpegdecOk && env.convertOk &&
  env.sinkOk && env.busOk

/-- Every creation and link step of `CreatePipeline` succeeds. -/
def createAllOk (env : CreateEnv) : Bool :=
  elemsOk env && env.linkSrcJpegOk && env.linkJpegConvOk && env.linkConvSinkOk

/-- `GstCamera::Play`, lines 45-63: sets the pipeline to PLAYING; returns
false only when that returns FAILURE; on ASYNC it additionally waits for
the state and only logs a failure of the wait. -/
def Play (setRes getRes : StateChangeReturn) : Bool × List Call :=
  let t := [Call.setState Elem.pipelineE GstState.playing]
  if setRes = StateChangeReturn.failure then
    (false, t ++ [Call.log "Failed to change the state to PLAYING"])
  else if setRes = StateChangeReturn.async then
    let t := t ++ [Call.getState Elem.pipelineE]
    if getRes = StateChangeReturn.failure then
      (true, t ++ [Call.log "Failed to get the current state"])
    else
      (true, t)
  else
    (true, t)

/-- `GstCamera::Pause`, lines 65-72. -/
def Pause (setRes : StateChangeReturn) : Bool × List Call :=
  let t := [Call.setState Elem.pipelineE GstState.paused]
  if setRes = StateChangeReturn.failure then
    (false, t ++ [Call.log "Failed to change the state to PAUSED"])
  else
    (true, t)

/-- `GstCamera::Stop`, lines 74-81. -/
def Stop (setRes : StateChangeReturn) : Bool × List Call :=
  let t := [Call.setState Elem.pipelineE GstState.ready]
  if setRes = StateChangeReturn.failure then
    (false, t ++ [Call.log "Failed to change the state to READY"])
  else
    (true, t)

/-- `GstCamera::TakePicture`, lines 83-88: logs that capture is
unsupported and stores the callback; nothing else. -/
def TakePicture (st : CameraState) (cb : Nat) : CameraState × List Call :=
  ({ st with on_notify_captured := some cb },
   [Call.log "TakePicture is not supported with v4l2src pipeline"])

/-- C `static_cast<int>` on a float value: truncation toward zero. -/
def ratTrunc (q : ℚ) : Int := if 0 ≤ q then ⌊q⌋ else ⌈q⌉

/-- `GstCamera::SetZoomLevel`, lines 90-118: fails on a null source or an
out-of-range zoom, otherwise applies `static_cast<int>(zoom)` as the
`zoom-absolute` extra control on the source and succeeds.  The state is
returned unchanged (the function mutates nothing). -/
def SetZoomLevel (st : CameraState) (zoom : ℚ) : Bool × CameraState × List Call :=
  match st.gst.source with
  | none => (false, st, [Call.log "Source not initialized"])
  | some src =>
    if zoom < st.min_zoom_level then
      (false, st, [Call.log "zoom level is under the min-zoom level"])
    else if zoom > st.max_zoom_level then
      (false, st, [Call.log "zoom level is over the max-zoom level"])
    else
      let zoom_int : Int := ratTrunc zoom
      (true, st, [Call.setExtraControls src zoom_int, Call.log "Set zoom level"])

/-- `GstCamera::GetPreviewFrameBuffer`, lines 120-129: under a shared lock,
reads `gst_.buffer`; returns null when it is null, otherwise extracts
`width_ * height_ * 4` bytes (the product computed as a C `uint32_t`, hence
reduced mod 2^32) from the held buffer into `pixels_` and returns the
pixel buffer (modelled `some ()`).  The state is returned unchanged. -/
def GetPreviewFrameBuffer (st : CameraState) : Option Unit × CameraState × List Call :=
  match st.gst.buffer with
  | none =>
    (none, st, [Call.lockShared, Call.bufferLoadHandle none, Call.unlockShared])
  | some buf =>
    let pixel_bytes : Nat := ((st.width * st.height * 4) % 4294967296).toNat
    (some (), st,
     [Call.lockShared, Call.bufferLoadHandle (some buf),
      Call.bufferExtract buf 0 pixel_bytes, Call.unlockShared])

/-- `GstCamera::Preroll`, lines 218-238: when the source exists, sets the
pipeline to PAUSED and, on ASYNC, waits; all failures are only logged. -/
def Preroll (st : CameraState) (setRes getRes : StateChangeReturn) : List Call :=
  match st.gst.source with
  | none => []
  | some _ =>
    let t := [Call.setState Elem.pipelineE GstState.paused]
    if setRes = StateChangeReturn.failure then
      t ++ [Call.log "Failed to change the state to PAUSED"]
    else if setRes = StateChangeReturn.async then
      let t := t ++ [Call.getState Elem.pipelineE]
      if getRes = StateChangeReturn.failure then
        t ++ [Call.log "Failed to get the current state"]
      else
        t
    else
      t

/-- `GstCamera::DestroyPipeline`, lines 240-279: disables handoffs, sets
the pipeline to NULL, unrefs buffer, bus and pipeline, and nulls every
handle field. -/
def DestroyPipeline (st : CameraState) : CameraState × List Call :=
  let t1 := match st.gst.video_sink with
    | some _ => [Call.setSignalHandoffs false]
    | none => []
  let t2 := match st.gst.pipeline with
    | some p => [Call.setState p GstState.stateNull]
    | none => []
  let p3 := match st.gst.buffer with
    | some b => ({ st.gst with buffer := none }, [Call.bufferUnref b, Call.bufferStoreHandle none])
    | none => (st.gst, [])
  let p4 := match p3.1.bus with
    | some b => ({ p3.1 with bus := none }, [Call.objectUnref b])
    | none => (p3.1, [])
  let p5 := match p4.1.pipeline with
    | some p => ({ p4.1 with pipeline := none }, [Call.objectUnref p])
    | none => (p4.1, [])
  let g := { p5.1 with source := none, jpegdec := none,
                       video_sink := none, video_convert := none }
  ({ st with gst := g }, t1 ++ t2 ++ p3.2 ++ p4.2 ++ p5.2)

/-- `GstCamera::GstCamera`, lines 9-32: nulls all handles, runs
`CreatePipeline`; on failure logs, destroys the pipeline and returns
early (leaving the zoom bounds as the uninitialized members of `init`);
on success prerolls and stores the zoom bounds 3.0 / 0.0. -/
def mkGstCamera (env : CreateEnv) (prerollSet prerollGet : StateChangeReturn)
    (init : CameraState) : CameraState × List Call :=
  let st0 := { init with gst := emptyGst }
  let r := CreatePipeline env st0.gst
  if r.1 = false then
    let d := DestroyPipeline { st0 with gst := r.2.1 }
    (d.1, r.2.2 ++ [Call.log "Failed to create a pipeline"] ++ d.2)
  else
    let st1 := { st0 with gst := r.2.1 }
    let t2 := Preroll st1 prerollSet prerollGet
    ({ st1 with max_zoom_level := 3, min_zoom_level := 0 }, r.2.2 ++ t2)

/-- `GstCamera::GetZoomMaxMinSize`, lines 281-285: writes the constants
3.0 and 0.0 into the out-parameters, modelled as the returned pair
(max, min). -/
def GetZoomMaxMinSize : ℚ × ℚ := (3, 0)

/-- `GstCamera::HandoffHandler`, lines 288-314: reads the frame size from
the pad caps (modelled as the `width`/`height` arguments); when it differs
from the stored size, stores it and reallocates `pixels_`; then, under an
exclusive lock, unrefs the previously held buffer (if any), stores a new
reference to the incoming buffer and notifies the stream handler. -/
def HandoffHandler (st : CameraState) (buf : Nat) (width height : Int) :
    CameraState × List Call :=
  let p1 :=
    if width ≠ st.width ∨ height ≠ st.height then
      ({ st with width := width, height := height, pixelsLen := some (width * height) },
       [Call.allocPixels (width * height)])
    else
      (st, [])
  let st1 := p1.1
  let t2 := [Call.lockExclusive, Call.bufferLoadHandle st1.gst.buffer]
  let p3 :=
    match st1.gst.buffer with
    | some old =>
      ({ st1 with gst := { st1.gst with buffer := none } },
       [Call.bufferUnref old, Call.bufferStoreHandle none])
    | none => (st1, [])
  let st3 := { p3.1 with gst := { p3.1.gst with buffer := some buf } }
  (st3, p1.2 ++ t2 ++ p3.2 ++
        [Call.bufferRef buf, Call.bufferStoreHandle (some buf),
         Call.notifyFrameDecoded, Call.unlockExclusive])

/-- `GstCamera::HandleGstMessage`, lines 317-362: for ELEMENT messages
with a structure named "image-done" and a stored capture callback, invokes
the callback with the structure's "filename" string; for WARNING/ERROR
messages parses, prints and frees the error; does nothing for any other
type; always unrefs the message and returns GST_BUS_DROP. -/
def HandleGstMessage (st : CameraState) (msg : Message) : BusSyncReply × List Call :=
  let t :=
    match msg.mtype with
    | MsgType.element =>
      match msg.mstruct with
      | some s =>
        if s.1 = "image-done" then
          match st.on_notify_captured with
          | some cb => [Call.invokeCaptureCallback cb s.2]
          | none => []
        else []
      | none => []
    | MsgType.warning =>
      [Call.parseWarning, Call.log "WARNING from element",
       Call.log "Warning details", Call.gFreeDebug, Call.errorFree]
    | MsgType.error =>
      [Call.parseError, Call.log "ERROR from element",
       Call.log "Error details", Call.gFreeDebug, Call.errorFree]
    | MsgType.other => []
  (BusSyncReply.drop, t ++ [Call.msgUnref])

/-- Scans a trace and checks that every write of the `gst_.buffer` handle
(`bufferStoreHandle`) happens while the exclusive lock is held.  The
second argument is whether the exclusive lock is held at the start. -/
def writesUnderExclusive : List Call → Bool → Bool
  | [], _ => true
  | Call.lockExclusive :: rest, _ => writesUnderExclusive rest true
  | Call.unlockExclusive :: rest, _ => writesUnderExclusive rest false
  | Call.bufferStoreHandle _ :: rest, held => held && writesUnderExclusive rest held
  | _ :: rest, held => writesUnderExclusive rest held

/-- Scans a trace and checks that every read of the `gst_.buffer` handle
(`bufferLoadHandle`) happens while the shared lock is held. -/
def readsUnderShared : List Call → Bool → Bool
  | [], _ => true
  | Call.lockShared :: rest, _ => readsUnderShared rest true
  | Call.unlockShared :: rest, _ => readsUnderShared rest false
  | Call.bufferLoadHandle _ :: rest, held => held && readsUnderShared rest held
  | _ :: rest, held => readsUnderShared rest held

/-- Is a trace event the stream-handler notification. -/
def isNotify : Call → Bool
  | Call.notifyFrameDecoded => true
  | _ => false

/-- A concrete state whose source element exists and whose zoom bounds are
the ones the constructor stores. -/
def zoomTestState : CameraState :=
  { gst := { emptyGst with source := some Elem.sourceE }, width := 0, height := 0,
    pixelsLen := none, max_zoom_level := 3, min_zoom_level := 0,
    on_notify_captured := none }

/-- A concrete state holding a decoded 1920x1080 frame buffer. -/
def previewTestState : CameraState :=
  { gst := { emptyGst with buffer := some 7 }, width := 1920, height := 1080,
    pixelsLen := some 2073600, max_zoom_level := 3, min_zoom_level := 0,
    on_notify_captured := none }

/-- A concrete state holding an old frame buffer, used to exercise the
handoff path that swaps buffers. -/
def handoffTestState : CameraState :=
  { gst := { emptyGst with buffer := some 3 }, width := 1920, height := 1080,
    pixelsLen := some 2073600, max_zoom_level := 3, min_zoom_level := 0,
    on_notify_captured := none }

/-- Claim C1: `CreatePipeline` links v4l2src to jpegdec under the JPEG
caps filter (image/jpeg, 1920x1080, 30 fps), then jpegdec to
videoconvert, then videoconvert to the fakesink under the RGBA caps
filter, in that order; it returns true exactly when every creation and
link step succeeds, and as soon as any element creation or link step
fails it returns false without performing any further link. -/
theorem createPipeline_link_order_and_failure :
    ∀ a b c d e f g h i : Bool,
      (CreatePipeline (CreateEnv.mk a b c d e f g h i) emptyGst).1 =
        createAllOk (CreateEnv.mk a b c d e f g h i) ∧
      (createAllOk (CreateEnv.mk a b c d e f g h i) = true →
        linkCalls (CreatePipeline (CreateEnv.mk a b c d e f g h i) emptyGst).2.2 =
          [Call.elementLinkFiltered Elem.sourceE Elem.jpegdecE mjpegCapsStr,
           Call.elementLink Elem.jpegdecE Elem.videoConvertE,
           Call.elementLinkFiltered Elem.videoConvertE Elem.videoSinkE rgbaCapsStr]) ∧
      (elemsOk (CreateEnv.mk a b c d e f g h i) = false →
        linkCalls (CreatePipeline (CreateEnv.mk a b c d e f g h i) emptyGst).2.2 = []) ∧
      (elemsOk (CreateEnv.mk a b c d e f g h i) = true → g = false →
        linkCalls (CreatePipeline (CreateEnv.mk a b c d e f g h i) emptyGst).2.2 =
          [Call.elementLinkFiltered Elem.sourceE Elem.jpegdecE mjpegCapsStr]) ∧
      ((elemsOk (CreateEnv.mk a b c d e f g h i) && g) = true → h = false →
        linkCalls (CreatePipeline (CreateEnv.mk a b c d e f g h i) emptyGst).2.2 =
          [Call.elementLinkFiltered Elem.sourceE Elem.jpegdecE mjpegCapsStr,
           Call.elementLink Elem.jpegdecE Elem.videoConvertE]) ∧
      ((elemsOk (CreateEnv.mk a b c d e f g h i) && g && h) = true → i = false →
        linkCalls (CreatePipeline (CreateEnv.mk a b c d e f g h i) emptyGst).2.2 =
          [Call.elementLinkFiltered Elem.sourceE Elem.jpegdecE mjpegCapsStr,
           Call.elementLink Elem.jpegdecE Elem.videoConvertE,
           Call.elementLinkFiltered Elem.videoConvertE Elem.videoSinkE rgbaCapsStr]) := by
  decide

/-- Claim C1, witness: in the all-successful environment the pipeline is
created and the three links are performed in order. -/
theorem createPipeline_link_order_witness :
    (CreatePipeline (CreateEnv.mk true true true true true true true true true) emptyGst).1 =
      createAllOk (CreateEnv.mk true true true true true true true true true) ∧
    linkCalls (CreatePipeline (CreateEnv.mk true true true true true true true true true) emptyGst).2.2 =
      [Call.elementLinkFiltered Elem.sourceE Elem.jpegdecE mjpegCapsStr,
       Call.elementLink Elem.jpegdecE Elem.videoConvertE,
       Call.elementLinkFiltered Elem.videoConvertE Elem.videoSinkE rgbaCapsStr] := by
  have h := createPipeline_link_order_and_failure true true true true true true true true true
  exact ⟨h.1, h.2.1 (by decide)⟩

/-- Claim C5: each of Play, Pause and Stop returns false exactly when the
initial `gst_element_set_state` call returns FAILURE; Play returns true
even when the subsequent wait for the PLAYING state (after an ASYNC state
change) fails, that failure being only logged. -/
theorem play_pause_stop_error_propagation :
    ∀ s g : StateChangeReturn,
      ((Play s g).1 = false ↔ s = StateChangeReturn.failure) ∧
      ((Pause s).1 = false ↔ s = StateChangeReturn.failure) ∧
      ((Stop s).1 = false ↔ s = StateChangeReturn.failure) ∧
      (Play StateChangeReturn.async StateChangeReturn.failure).1 = true ∧
      Call.log "Failed to get the current state" ∈
        (Play StateChangeReturn.async StateChangeReturn.failure).2 := by
  decide

/-- Claim C5, witness: a failing initial state change makes Play return
false. -/
theorem play_pause_stop_error_propagation_witness :
    (Play StateChangeReturn.failure StateChangeReturn.success).1 = false :=
  (play_pause_stop_error_propagation StateChangeReturn.failure
    StateChangeReturn.success).1.mpr rfl

/-- Claim C3: SetZoomLevel returns false, applying no zoom control,
whenever the source is null or the zoom is strictly below the stored
minimum or strictly above the stored maximum; for every zoom within the
bounds with a non-null source it applies the zoom control and returns
true. -/
theorem setZoomLevel_range_check (st : CameraState) (zoom : ℚ) :
    ((st.gst.source = none ∨ zoom < st.min_zoom_level ∨ st.max_zoom_level < zoom) →
      (SetZoomLevel st zoom).1 = false ∧
      ∀ e z, Call.setExtraControls e z ∉ (SetZoomLevel st zoom).2.2) ∧
    (∀ src, st.gst.source = some src → st.min_zoom_level ≤ zoom →
      zoom ≤ st.max_zoom_level →
      (SetZoomLevel st zoom).1 = true ∧
      Call.setExtraControls src (ratTrunc zoom) ∈ (SetZoomLevel st zoom).2.2) := by
  constructor
  · intro hbad
    cases hsrc : st.gst.source with
    | none => simp [SetZoomLevel, hsrc]
    | some src =>
      rcases hbad with hbad | hbad | hbad
      · rw [hsrc] at hbad; cases hbad
      · simp [SetZoomLevel, hsrc, hbad]
      · by_cases hlt : zoom < st.min_zoom_level
        · simp [SetZoomLevel, hsrc, hlt]
        · simp [SetZoomLevel, hsrc, hlt, hbad]
  · intro src hsrc hmin hmax
    simp [SetZoomLevel, hsrc, not_lt.mpr hmin, not_lt.mpr hmax]

/-- Claim C3, witness: with a live source, bounds 0 / 3 and zoom 2, the
zoom control is applied and the call succeeds. -/
theorem setZoomLevel_range_check_witness :
    (SetZoomLevel zoomTestState 2).1 = true ∧
    Call.setExtraControls Elem.sourceE (ratTrunc 2) ∈ (SetZoomLevel zoomTestState 2).2.2 :=
  (setZoomLevel_range_check zoomTestState 2).2 Elem.sourceE rfl (by decide) (by decide)

/-- Claim C8: for every in-range zoom with a live source, the value
applied as the zoom-absolute control is the zoom truncated toward zero
(`static_cast<int>`), which on nonnegative zooms is the floor. -/
theorem setZoomLevel_truncates_toward_zero (st : CameraState) (zoom : ℚ) (src : Elem)
    (hsrc : st.gst.source = some src) (hmin : st.min_zoom_level ≤ zoom)
    (hmax : zoom ≤ st.max_zoom_level) :
    (SetZoomLevel st zoom).2.2 =
      [Call.setExtraControls src (ratTrunc zoom), Call.log "Set zoom level"] ∧
    (0 ≤ zoom → ratTrunc zoom = ⌊zoom⌋) := by
  constructor
  · simp [SetZoomLevel, hsrc, not_lt.mpr hmin, not_lt.mpr hmax]
  · intro h0; simp [ratTrunc, h0]

/-- Claim C8, witness: zoom levels 2.9 and 2.0 both apply the control
value 2. -/
theorem setZoomLevel_truncates_toward_zero_witness :
    (SetZoomLevel zoomTestState (mkRat 29 10)).2.2 =
      [Call.setExtraControls Elem.sourceE 2, Call.log "Set zoom level"] ∧
    (SetZoomLevel zoomTestState 2).2.2 =
      [Call.setExtraControls Elem.sourceE 2, Call.log "Set zoom level"] := by
  have h1 := (setZoomLevel_truncates_toward_zero zoomTestState (mkRat 29 10)
    Elem.sourceE rfl (by decide) (by decide)).1
  have h2 := (setZoomLevel_truncates_toward_zero zoomTestState 2
    Elem.sourceE rfl (by decide) (by decide)).1
  have e1 : ratTrunc (mkRat 29 10) = 2 := by decide
  have e2 : ratTrunc 2 = 2 := by decide
  rw [e1] at h1
  rw [e2] at h2
  exact ⟨h1, h2⟩

/-- `CreatePipeline` on the freshly zeroed handle record returns the
conjunction of all its creation and link outcomes (shared helper). -/
lemma createPipeline_result_empty : ∀ a b c d e f g h i : Bool,
    (CreatePipeline (CreateEnv.mk a b c d e f g h i) emptyGst).1 =
      createAllOk (CreateEnv.mk a b c d e f g h i) := by
  decide

/-- Claim C6: GetPreviewFrameBuffer returns null when no decoded frame
buffer is held; otherwise it returns the pixel buffer after extracting
exactly `width_ * height_ * 4` bytes from the held buffer (the product
being computed in `uint32_t`, the identity holds whenever it does not
overflow); in both cases the state, the held buffer handle included, is
unmodified. -/
theorem getPreviewFrameBuffer_spec (st : CameraState) :
    (st.gst.buffer = none → (GetPreviewFrameBuffer st).1 = none) ∧
    (∀ buf, st.gst.buffer = some buf →
      (GetPreviewFrameBuffer st).1 = some () ∧
      (0 ≤ st.width * st.height * 4 → st.width * st.height * 4 < 4294967296 →
        Call.bufferExtract buf 0 (st.width * st.height * 4).toNat ∈
          (GetPreviewFrameBuffer st).2.2)) ∧
    (GetPreviewFrameBuffer st).2.1 = st := by
  refine ⟨?_, ?_, ?_⟩
  · intro hb; simp [GetPreviewFrameBuffer, hb]
  · intro buf hb
    refine ⟨by simp [GetPreviewFrameBuffer, hb], ?_⟩
    intro h0 hlt
    have hm : st.width * st.height * 4 % 4294967296 = st.width * st.height * 4 :=
      Int.emod_eq_of_lt h0 hlt
    simp [GetPreviewFrameBuffer, hb, hm]
  · cases hb : st.gst.buffer <;> simp [GetPreviewFrameBuffer, hb]

/-- Claim C6, witness: with a held buffer and a 1920x1080 frame the
extraction covers exactly width * height * 4 bytes and the pixel buffer
is returned. -/
theorem getPreviewFrameBuffer_spec_witness :
    (GetPreviewFrameBuffer previewTestState).1 = some () ∧
    Call.bufferExtract 7 0 (previewTestState.width * previewTestState.height * 4).toNat ∈
      (GetPreviewFrameBuffer previewTestState).2.2 := by
  have h := (getPreviewFrameBuffer_spec previewTestState).2.1 7 rfl
  exact ⟨h.1, h.2 (by decide) (by decide)⟩

/-- Claim C7: in the handoff callback every write of the buffer handle
happens while the exclusive lock on `mutex_buffer_` is held (and a write
does happen), and in GetPreviewFrameBuffer every read of the handle
happens while the shared lock is held (and a read does happen, while no
write ever does), so the pointer swap and the frame read are serialized
by the same reader/writer mutex. -/
theorem buffer_lock_discipline (st st2 : CameraState) (buf : Nat) (w h : Int) :
    writesUnderExclusive (HandoffHandler st buf w h).2 false = true ∧
    Call.bufferStoreHandle (some buf) ∈ (HandoffHandler st buf w h).2 ∧
    readsUnderShared (GetPreviewFrameBuffer st2).2.2 false = true ∧
    Call.bufferLoadHandle st2.gst.buffer ∈ (GetPreviewFrameBuffer st2).2.2 ∧
    (∀ v, Call.bufferStoreHandle v ∉ (GetPreviewFrameBuffer st2).2.2) := by
  refine ⟨?_, ?_, ?_, ?_, ?_⟩
  · by_cases hd : w ≠ st.width ∨ h ≠ st.height <;>
      cases hb : st.gst.buffer <;>
        simp [HandoffHandler, hd, hb, writesUnderExclusive]
  · by_cases hd : w ≠ st.width ∨ h ≠ st.height <;>
      cases hb : st.gst.buffer <;>
        simp [HandoffHandler, hd, hb]
  · cases hb : st2.gst.buffer <;>
      simp [GetPreviewFrameBuffer, hb, readsUnderShared]
  · cases hb : st2.gst.buffer <;> simp [GetPreviewFrameBuffer, hb]
  · intro v
    cases hb : st2.gst.buffer <;> simp [GetPreviewFrameBuffer, hb]

/-- Claim C9: the handoff callback reallocates the pixel buffer and
updates the stored size only when the incoming dimensions differ; when
they are unchanged, `pixels_`, `width_` and `height_` are untouched and
no allocation happens; in every invocation a previously held buffer is
unreferenced before the new reference is stored, the new reference is the
only one held afterwards, and the stream handler is notified exactly
once. -/
theorem handoffHandler_frame_effect (st : CameraState) (buf : Nat) (w h : Int) :
    ((w = st.width ∧ h = st.height) →
      (HandoffHandler st buf w h).1.width = st.width ∧
      (HandoffHandler st buf w h).1.height = st.height ∧
      (HandoffHandler st buf w h).1.pixelsLen = st.pixelsLen ∧
      ∀ n, Call.allocPixels n ∉ (HandoffHandler st buf w h).2) ∧
    (¬(w = st.width ∧ h = st.height) →
      (HandoffHandler st buf w h).1.width = w ∧
      (HandoffHandler st buf w h).1.height = h ∧
      (HandoffHandler st buf w h).1.pixelsLen = some (w * h)) ∧
    (HandoffHandler st buf w h).1.gst.buffer = some buf ∧
    (∀ old, st.gst.buffer = some old →
      ∃ t1 t2 t3 : List Call,
        (HandoffHandler st buf w h).2 =
          t1 ++ Call.bufferUnref old :: t2 ++ Call.bufferStoreHandle (some buf) :: t3) ∧
    (HandoffHandler st buf w h).2.countP isNotify = 1 := by
  by_cases hd : w ≠ st.width ∨ h ≠ st.height
  · have hne : ¬(w = st.width ∧ h = st.height) := by
      rcases hd with hd | hd
      · exact fun hc => hd hc.1
      · exact fun hc => hd hc.2
    cases hb : st.gst.buffer with
    | none =>
      refine ⟨fun hc => absurd hc hne, ?_, ?_, ?_, ?_⟩
      · intro _; simp [HandoffHandler, hd, hb]
      · simp [HandoffHandler, hd, hb]
      · intro old hold; simp at hold
      · simp [HandoffHandler, hd, hb, List.countP_cons, isNotify]
    | some old0 =>
      refine ⟨fun hc => absurd hc hne, ?_, ?_, ?_, ?_⟩
      · intro _; simp [HandoffHandler, hd, hb]
      · simp [HandoffHandler, hd, hb]
      · intro old hold
        obtain rfl : old0 = old := Option.some_inj.mp hold
        refine ⟨[Call.allocPixels (w * h), Call.lockExclusive,
                 Call.bufferLoadHandle (some old0)],
                [Call.bufferStoreHandle none, Call.bufferRef buf],
                [Call.notifyFrameDecoded, Call.unlockExclusive], ?_⟩
        simp [HandoffHandler, hd, hb]
      · simp [HandoffHandler, hd, hb, List.countP_cons, isNotify]
  · have hsame : w = st.width ∧ h = st.height := by
      by_contra hc
      apply hd
      by_cases hw : w = st.width
      · exact Or.inr fun hh => hc ⟨hw, hh⟩
      · exact Or.inl hw
    cases hb : st.gst.buffer with
    | none =>
      refine ⟨?_, fun hc => absurd hsame hc, ?_, ?_, ?_⟩
      · intro _
        refine ⟨?_, ?_, ?_, ?_⟩ <;> simp [HandoffHandler, hd, hb]
      · simp [HandoffHandler, hd, hb]
      · intro old hold; simp at hold
      · simp [HandoffHandler, hd, hb, List.countP_cons, isNotify]
    | some old0 =>
      refine ⟨?_, fun hc => absurd hsame hc, ?_, ?_, ?_⟩
      · intro _
        refine ⟨?_, ?_, ?_, ?_⟩ <;> simp [HandoffHandler, hd, hb]
      · simp [HandoffHandler, hd, hb]
      · intro old hold
        obtain rfl : old0 = old := Option.some_inj.mp hold
        refine ⟨[Call.lockExclusive, Call.bufferLoadHandle (some old0)],
                [Call.bufferStoreHandle none, Call.bufferRef buf],
                [Call.notifyFrameDecoded, Call.unlockExclusive], ?_⟩
        simp [HandoffHandler, hd, hb]
      · simp [HandoffHandler, hd, hb, List.countP_cons, isNotify]

/-- Claim C9, witness: a handoff with unchanged dimensions keeps the
pixel allocation, unreferences the old buffer before storing the new
reference, holds exactly the new buffer afterwards, and notifies once. -/
theorem handoffHandler_frame_effect_witness :
    (HandoffHandler handoffTestState 9 1920 1080).1.pixelsLen = handoffTestState.pixelsLen ∧
    (HandoffHandler handoffTestState 9 1920 1080).1.gst.buffer = some 9 ∧
    (∃ t1 t2 t3 : List Call,
      (HandoffHandler handoffTestState 9 1920 1080).2 =
        t1 ++ Call.bufferUnref 3 :: t2 ++ Call.bufferStoreHandle (some 9) :: t3) ∧
    (HandoffHandler handoffTestState 9 1920 1080).2.countP isNotify = 1 := by
  have hth := handoffHandler_frame_effect handoffTestState 9 1920 1080
  exact ⟨(hth.1 (by decide)).2.2.1, hth.2.2.1, hth.2.2.2.1 3 rfl, hth.2.2.2.2⟩

/-- Claim C2: TakePicture only stores the callback (its trace is the
single unsupported-capture log, initiating nothing); after it has been
called, an ELEMENT bus message whose structure is named "image-done"
makes the sync handler invoke the stored callback with the message's
"filename" string. -/
theorem takePicture_capture_callback (st : CameraState) (cb : Nat) (msg : Message)
    (filename : Option String) :
    (TakePicture st cb).1 = { st with on_notify_captured := some cb } ∧
    (TakePicture st cb).2 = [Call.log "TakePicture is not supported with v4l2src pipeline"] ∧
    (msg.mtype = MsgType.element → msg.mstruct = some ("image-done", filename) →
      Call.invokeCaptureCallback cb filename ∈ (HandleGstMessage (TakePicture st cb).1 msg).2) := by
  refine ⟨rfl, rfl, ?_⟩
  intro hm hs
  simp [HandleGstMessage, hm, hs, TakePicture]

/-- Claim C2, witness: after storing callback 5, an image-done ELEMENT
message invokes it with the message's filename. -/
theorem takePicture_capture_callback_witness :
    Call.invokeCaptureCallback 5 (some "photo.jpg") ∈
      (HandleGstMessage (TakePicture zoomTestState 5).1
        (Message.mk MsgType.element (some ("image-done", some "photo.jpg")))).2 :=
  (takePicture_capture_callback zoomTestState 5
    (Message.mk MsgType.element (some ("image-done", some "photo.jpg")))
    (some "photo.jpg")).2.2 rfl rfl

/-- Claim C10: the sync handler handles every message type totally: it
always returns GST_BUS_DROP and ends by unreferencing the message; for
types other than ELEMENT, WARNING and ERROR it does nothing else; for
WARNING and ERROR it parses, prints and frees the error; for ELEMENT
messages it invokes the capture callback exactly when the structure is
present, named "image-done" and a callback is stored. -/
theorem handleGstMessage_total (st : CameraState) (msg : Message) :
    (HandleGstMessage st msg).1 = BusSyncReply.drop ∧
    (HandleGstMessage st msg).2.getLast? = some Call.msgUnref ∧
    (msg.mtype = MsgType.other → (HandleGstMessage st msg).2 = [Call.msgUnref]) ∧
    (msg.mtype = MsgType.warning →
      (HandleGstMessage st msg).2 =
        [Call.parseWarning, Call.log "WARNING from element", Call.log "Warning details",
         Call.gFreeDebug, Call.errorFree, Call.msgUnref]) ∧
    (msg.mtype = MsgType.error →
      (HandleGstMessage st msg).2 =
        [Call.parseError, Call.log "ERROR from element", Call.log "Error details",
         Call.gFreeDebug, Call.errorFree, Call.msgUnref]) ∧
    (∀ name fn cb, msg.mtype = MsgType.element → msg.mstruct = some (name, fn) →
      st.on_notify_captured = some cb → name = "image-done" →
      (HandleGstMessage st msg).2 = [Call.invokeCaptureCallback cb fn, Call.msgUnref]) ∧
    (msg.mtype = MsgType.element → msg.mstruct = none →
      (HandleGstMessage st msg).2 = [Call.msgUnref]) := by
  refine ⟨rfl, ?_, ?_, ?_, ?_, ?_, ?_⟩
  · obtain ⟨t, ht⟩ : ∃ t, (HandleGstMessage st msg).2 = t ++ [Call.msgUnref] := ⟨_, rfl⟩
    rw [ht, List.getLast?_concat]
  · intro hm; simp [HandleGstMessage, hm]
  · intro hm; simp [HandleGstMessage, hm]
  · intro hm; simp [HandleGstMessage, hm]
  · intro name fn cb hm hs hcb hname
    subst hname
    simp [HandleGstMessage, hm, hs, hcb]
  · intro hm hs; simp [HandleGstMessage, hm, hs]

/-- Claim C10, witness: a message of an unhandled type produces only the
final unref, and the handler drops it. -/
theorem handleGstMessage_total_witness :
    (HandleGstMessage zoomTestState (Message.mk MsgType.other none)).2 = [Call.msgUnref] :=
  (handleGstMessage_total zoomTestState (Message.mk MsgType.other none)).2.2.1 rfl

/-- Claim C4: GetZoomMaxMinSize always returns max = 3 and min = 0; these
equal the bounds the constructor stores on its successful path; and no
operation of the adapter ever modifies the stored zoom bounds, so the
zoom range never changes over the object's lifetime. -/
theorem zoom_bounds_constant :
    GetZoomMaxMinSize = (3, 0) ∧
    (∀ env pset pget init, createAllOk env = true →
      (mkGstCamera env pset pget init).1.max_zoom_level = GetZoomMaxMinSize.1 ∧
      (mkGstCamera env pset pget init).1.min_zoom_level = GetZoomMaxMinSize.2) ∧
    (∀ st z, (SetZoomLevel st z).2.1 = st) ∧
    (∀ st cb, (TakePicture st cb).1.max_zoom_level = st.max_zoom_level ∧
              (TakePicture st cb).1.min_zoom_level = st.min_zoom_level) ∧
    (∀ st buf w h, (HandoffHandler st buf w h).1.max_zoom_level = st.max_zoom_level ∧
                   (HandoffHandler st buf w h).1.min_zoom_level = st.min_zoom_level) ∧
    (∀ st, (GetPreviewFrameBuffer st).2.1 = st) := by
  refine ⟨rfl, ?_, ?_, ?_, ?_, ?_⟩
  · intro env pset pget init hok
    obtain ⟨a, b, c, d, e, f, g, h, i⟩ := env
    have hr := createPipeline_result_empty a b c d e f g h i
    rw [hok] at hr
    constructor <;> simp [mkGstCamera, hr, GetZoomMaxMinSize]
  · intro st z
    cases hsrc : st.gst.source with
    | none => simp [SetZoomLevel, hsrc]
    | some src =>
      simp only [SetZoomLevel, hsrc]
      split_ifs <;> rfl
  · intro st cb; exact ⟨rfl, rfl⟩
  · intro st buf w h
    by_cases hd : w ≠ st.width ∨ h ≠ st.height <;>
      cases hb : st.gst.buffer <;>
        constructor <;> simp [HandoffHandler, hd, hb]
  · intro st
    cases hb : st.gst.buffer <;> simp [GetPreviewFrameBuffer, hb]

/-- Claim C4, witness: on a successful construction the stored bounds
coincide with the constants GetZoomMaxMinSize reports. -/
theorem zoom_bounds_constant_witness :
    (mkGstCamera (CreateEnv.mk true true true true true true true true true)
        StateChangeReturn.success StateChangeReturn.success zoomTestState).1.max_zoom_level =
      GetZoomMaxMinSize.1 ∧
    (mkGstCamera (CreateEnv.mk true true true true true true true true true)
        StateChangeReturn.success StateChangeReturn.success zoomTestState).1.min_zoom_level =
      GetZoomMaxMinSize.2 :=
  zoom_bounds_constant.2.1 (CreateEnv.mk true true true true true true true true true)
    StateChangeReturn.success StateChangeReturn.success zoomTestState rfl
